import Mathlib

/-
  Verification of sat/cli/bootsys/platform.py.

  The module orchestrates starting and stopping platform services over SSH.
  We embed each function as a pure Lean definition over an explicit model of
  the remote environment: a `HostEnv` records how one host answers the
  commands the code issues (connection success, systemctl status tokens and
  exit codes).  Effectful functions return, besides their Python result
  (`Except` for raised exceptions), a trace of the externally visible events
  they perform (commands issued, log records, steps executed), so that
  temporal claims ("never after the first failure", "before the prompt is
  issued") become statements about traces.
-/

deriving instance DecidableEq for Except

namespace Sat.Platform

/-- How one remote host behaves for the commands a `RemoteServiceWaiter`
issues over SSH.  `connectOk` models whether `SSHClient.connect` succeeds;
`activeState` / `enabledState` are the stdout tokens of
`systemctl is-active` / `systemctl is-enabled` at the time of
`pre_wait_action`; the `Exit` fields are the exit codes of the respective
remote commands; `pollStates` is the sequence of `is-active` tokens observed
by the successive polls that fit into the timeout window. -/
structure HostEnv where
  connectOk : Bool
  activeState : String
  isActiveExit : Nat
  enabledState : String
  isEnabledExit : Nat
  stateCmdExit : Nat
  enableCmdExit : Nat
  pollStates : List String
deriving Repr, DecidableEq

/-- The exception kinds the embedded code can raise: `sshError` stands for
paramiko's SSHException / socket.error, `runtimeError` for RuntimeError. -/
inductive RemoteError where
  | sshError (msg : String)
  | runtimeError (msg : String)
deriving Repr, DecidableEq

/-- Python-level exceptions of the orchestration layer. -/
inductive PyError where
  | valueError (msg : String)
  | fatalPlatformError (msg : String)
  | systemExit (code : Nat)
deriving Repr, DecidableEq

/-- The systemctl subcommands the code issues on a remote host. -/
inductive Systemctl where
  | isActive
  | isEnabled
  | start
  | stop
  | enable
  | disable
deriving Repr, DecidableEq

/-- A control command changes service state; the two queries do not
(claims about "control commands" count exactly these four). -/
def Systemctl.isControl : Systemctl → Bool
  | .start => true
  | .stop => true
  | .enable => true
  | .disable => true
  | .isActive => false
  | .isEnabled => false

/-- The fields of RemoteServiceWaiter set by its constructor
(platform.py lines 85-89).  The live SSH client is not part of the record;
it is modelled by the `HostEnv` each method receives. -/
structure RemoteServiceWaiter where
  host : String
  service_name : String
  target_state : String
  timeout : Nat
  poll_interval : Nat
  target_enabled : Option String
deriving Repr, DecidableEq

/-- VALID_TARGET_STATE_VALUES from platform.py line 58. -/
def VALID_TARGET_STATE_VALUES : List String := ["active", "inactive"]

/-- VALID_TARGET_ENABLED_VALUES from platform.py line 59. -/
def VALID_TARGET_ENABLED_VALUES : List String := ["enabled", "disabled"]

/-- RemoteServiceWaiter.__init__ (platform.py lines 61-89): validates
`target_state` and `target_enabled` and raises ValueError (here: `.error`)
on a bad value, before any remote interaction. -/
def RemoteServiceWaiter.init (host service_name target_state : String)
    (timeout poll_interval : Nat) (target_enabled : Option String) :
    Except String RemoteServiceWaiter :=
  if !(VALID_TARGET_STATE_VALUES.contains target_state) then
    .error ("Invalid target state " ++ target_state)
  else
    match target_enabled with
    | some te =>
      if !(VALID_TARGET_ENABLED_VALUES.contains te) then
        .error ("Invalid target enabled " ++ te)
      else
        .ok ⟨host, service_name, target_state, timeout, poll_interval, some te⟩
    | none => .ok ⟨host, service_name, target_state, timeout, poll_interval, none⟩

/-- The method _run_remote_command (platform.py lines 91-116): raises RuntimeError for a
non-zero exit code only when `nonzero_error` is true; otherwise returns
stdout. -/
def _run_remote_command (exitCode : Nat) (stdout : String) (nonzero_error : Bool) :
    Except RemoteError String :=
  if (exitCode != 0) && nonzero_error then
    .error (.runtimeError ("Command returned non-zero exit code " ++ toString exitCode))
  else
    .ok stdout

/-- The method _get_active (platform.py lines 156-169): queries `systemctl is-active`
with nonzero_error=False. -/
def RemoteServiceWaiter._get_active (_w : RemoteServiceWaiter) (env : HostEnv) :
    Except RemoteError String :=
  _run_remote_command env.isActiveExit env.activeState false

/-- The method _get_enabled (platform.py lines 171-184): queries `systemctl is-enabled`
with nonzero_error=False. -/
def RemoteServiceWaiter._get_enabled (_w : RemoteServiceWaiter) (env : HostEnv) :
    Except RemoteError String :=
  _run_remote_command env.isEnabledExit env.enabledState false

/-- has_completed (platform.py lines 186-193): true iff the current
`is-active` token equals `target_state`. -/
def RemoteServiceWaiter.has_completed (w : RemoteServiceWaiter) (env : HostEnv) :
    Except RemoteError Bool :=
  (w._get_active env).map (fun current_state => current_state == w.target_state)

/-- The tail of pre_wait_action (platform.py lines 151-154): if
`target_enabled` is set and differs from the live enabled status, issue the
enable/disable command.  `issued` are the systemctl commands issued so far and
`completed` the completed flag set by the first half. -/
def RemoteServiceWaiter.pre_wait_enabled (w : RemoteServiceWaiter) (env : HostEnv)
    (issued : List Systemctl) (completed : Bool) :
    List Systemctl × Except RemoteError Bool :=
  match w.target_enabled with
  | none => (issued, .ok completed)
  | some te =>
    match w._get_enabled env with
    | .error e => (issued ++ [Systemctl.isEnabled], .error e)
    | .ok current =>
      if current == te then
        (issued ++ [Systemctl.isEnabled], .ok completed)
      else
        let systemctl_action := if te == "enabled" then Systemctl.enable else Systemctl.disable
        match _run_remote_command env.enableCmdExit "" true with
        | .error e => (issued ++ [Systemctl.isEnabled, systemctl_action], .error e)
        | .ok _ => (issued ++ [Systemctl.isEnabled, systemctl_action], .ok completed)

/-- pre_wait_action (platform.py lines 131-154): connect, then if the service
already has the target active state mark completed, else issue the start/stop
command (a non-zero exit raises RuntimeError and aborts the method); then the
independent enable/disable step of `pre_wait_enabled`.  Returns the issued
commands and either the raised exception or the completed flag.  Note that a
validated waiter has `target_enabled` equal to none, some "enabled" or
some "disabled", so Python's truthiness test on it coincides with
`Option.isSome`. -/
def RemoteServiceWaiter.pre_wait_action (w : RemoteServiceWaiter) (env : HostEnv) :
    List Systemctl × Except RemoteError Bool :=
  let systemctl_action := if w.target_state == "active" then Systemctl.start else Systemctl.stop
  if !env.connectOk then
    ([], .error (.sshError ("Failed to connect to host " ++ w.host)))
  else
    match w.has_completed env with
    | .error e => ([Systemctl.isActive], .error e)
    | .ok true => w.pre_wait_enabled env [Systemctl.isActive] true
    | .ok false =>
      match _run_remote_command env.stateCmdExit "" true with
      | .error e => ([Systemctl.isActive, systemctl_action], .error e)
      | .ok _ => w.pre_wait_enabled env [Systemctl.isActive, systemctl_action] false

/-- Modelled from the spec: the `Waiter` base class in
sat/cli/bootsys/waiting.py is not among the provided sources.  Per spec §4.1,
after `pre_wait_action` the waiter calls `has_completed()` at
`poll_interval` cadence until it is true or the timeout elapses; the finitely
many polls that fit into the timeout window observe the `is-active` tokens
`states`, so the wait succeeds iff some observed token equals the target. -/
def waiterPoll (w : RemoteServiceWaiter) (states : List String) : Bool :=
  states.any (fun s => s == w.target_state)

/-- Modelled from the spec: Waiter.wait_for_completion per spec §4.1 runs
`pre_wait_action`, returns true immediately when it already marked the waiter
completed, and otherwise polls until `has_completed()` or timeout; any
exception of `pre_wait_action` propagates. -/
def waiterRun (w : RemoteServiceWaiter) (env : HostEnv) : Except RemoteError Bool :=
  match w.pre_wait_action env with
  | (_, .error e) => .error e
  | (_, .ok true) => .ok true
  | (_, .ok false) => .ok (waiterPoll w env.pollStates)

/-- RemoteServiceWaiter.wait_for_completion (platform.py lines 118-124):
catches RuntimeError, socket.error and SSHException, logs them, and resolves
to completed = false (spec §4.1: the caught failure resolves the waiter's
completed flag to false) rather than propagating. -/
def RemoteServiceWaiter.wait_for_completion (w : RemoteServiceWaiter) (env : HostEnv) : Bool :=
  match waiterRun w env with
  | .ok b => b
  | .error _ => false

/-- SERVICE_ACTION_TIMEOUT from platform.py line 47. -/
def SERVICE_ACTION_TIMEOUT : Nat := 30

/-- The externally visible events of do_service_action_on_hosts: each
waiter's asynchronous start, each waiter's await reaching a terminal state
with its final completed flag, and the raising of FatalPlatformError. -/
inductive BatchEvent where
  | started (host : String)
  | awaited (host : String) (completed : Bool)
  | raisedFatal
deriving Repr, DecidableEq

/-- The list comprehension of platform.py lines 278-280: construct one
RemoteServiceWaiter per host, left to right; the first constructor
ValueError (if any) propagates. -/
def mkWaiters (service target_state : String) (timeout : Nat)
    (target_enabled : Option String) : List String → Except String (List RemoteServiceWaiter)
  | [] => .ok []
  | host :: rest =>
    match RemoteServiceWaiter.init host service target_state timeout 5 target_enabled with
    | .error e => .error e
    | .ok w =>
      match mkWaiters service target_state timeout target_enabled rest with
      | .error e => .error e
      | .ok ws => .ok (w :: ws)

/-- The aggregate error message of platform.py lines 287-289. -/
def batchFailMessage (service target_state : String) (target_enabled : Option String) : String :=
  "Failed to ensure " ++ service ++ " is " ++ target_state ++ " " ++
    (match target_enabled with
     | some te => "and " ++ te ++ " "
     | none => "") ++ "on all hosts."

/-- do_service_action_on_hosts (platform.py lines 260-289): build one waiter
per host, start all asynchronously (first loop), await all (second loop),
then raise FatalPlatformError iff not every waiter's completed flag is true.
Each waiter runs against its own host's environment in its own thread and the
hosts do not interact, so mapping `wait_for_completion` over the list is a
faithful linearization of the parallel execution; the trace records the
start events, the await events in order, and the raise. -/
def do_service_action_on_hosts (hosts : List String) (service : String)
    (target_state : String) (timeout : Nat) (target_enabled : Option String)
    (envOf : String → HostEnv) : List BatchEvent × Except PyError Unit :=
  match mkWaiters service target_state timeout target_enabled hosts with
  | .error e => ([], .error (.valueError e))
  | .ok service_action_waiters =>
    let startEvents := service_action_waiters.map (fun w => BatchEvent.started w.host)
    let results := service_action_waiters.map
      (fun w => (w.host, w.wait_for_completion (envOf w.host)))
    let awaitEvents := results.map (fun r => BatchEvent.awaited r.1 r.2)
    if results.all (fun r => r.2) then
      (startEvents ++ awaitEvents, .ok ())
    else
      (startEvents ++ awaitEvents ++ [BatchEvent.raisedFatal],
       .error (.fatalPlatformError (batchFailMessage service target_state target_enabled)))

/-- How one host behaves for the container drain of stop_containers:
whether the SSH connection succeeds and the exit code of the
CONTAINER_STOP_SCRIPT pipeline. -/
structure DrainEnv where
  connectOk : Bool
  scriptExit : Nat
deriving Repr, DecidableEq

/-- Levels of the log records the embedded code emits. -/
inductive LogLevel where
  | debug
  | info
  | warning
  | error
deriving Repr, DecidableEq

/-- stop_containers (platform.py lines 228-257): a connection failure is
logged at error level and raises SystemExit(1); a non-zero exit of the
container-stop pipeline is logged at warning level and the function returns
normally. -/
def stop_containers (host : String) (env : DrainEnv) :
    List (LogLevel × String) × Except PyError Unit :=
  if !env.connectOk then
    ([(LogLevel.error, "Failed to connect to host " ++ host)], .error (.systemExit 1))
  else if env.scriptExit != 0 then
    ([(LogLevel.warning,
       "Stopping containerd containers on host " ++ host ++ " return non-zero exit status.")],
     .ok ())
  else
    ([], .ok ())

/-- A Python Thread running stop_containers as its target: an exception
raised by the target, SystemExit included, terminates only that thread and is
never re-raised in the thread that joins it, so the joiner observes only the
log records. -/
def runDrainThread (host : String) (env : DrainEnv) : List (LogLevel × String) :=
  (stop_containers host env).1

/-- The NCN group mapping returned by prompt_for_ncn_verification
(platform.py lines 206-210). -/
structure NcnGroups where
  managers : List String
  workers : List String
  kubernetes : List String
deriving Repr, DecidableEq

/-- Insert a string into a sorted list, comparing with the standard string
order (Python's sorted on str). -/
def insertSorted (x : String) : List String → List String
  | [] => [x]
  | y :: ys => if (compare x y).isLE then x :: y :: ys else y :: insertSorted x ys

/-- Python's sorted() on a list of strings. -/
def sortedStrings (l : List String) : List String := l.foldr insertSorted []

/-- The externally visible events of prompt_for_ncn_verification: printing
the resolved groups, and issuing the yes/no confirmation prompt. -/
inductive PromptEvent where
  | printedGroups
  | promptIssued
deriving Repr, DecidableEq

/-- prompt_for_ncn_verification (platform.py lines 196-225): resolve the
three groups via get_mgmt_ncn_hostnames (an external inventory query, passed
as a function), print them, raise FatalPlatformError when any group is empty
-- before the prompt is issued -- then issue the prompt and raise
FatalPlatformError when the admin answers "no".  `answer` is the choice
pester_choices returns. -/
def prompt_for_ncn_verification (get_mgmt_ncn_hostnames : List String → List String)
    (answer : String) : List PromptEvent × Except PyError NcnGroups :=
  let ncns_by_group : NcnGroups :=
    ⟨sortedStrings (get_mgmt_ncn_hostnames ["managers"]),
     sortedStrings (get_mgmt_ncn_hostnames ["workers"]),
     sortedStrings (get_mgmt_ncn_hostnames ["managers", "workers"])⟩
  let empty_groups : List String :=
    (if ncns_by_group.managers.isEmpty then ["managers"] else []) ++
    (if ncns_by_group.workers.isEmpty then ["workers"] else []) ++
    (if ncns_by_group.kubernetes.isEmpty then ["kubernetes"] else [])
  if !empty_groups.isEmpty then
    ([PromptEvent.printedGroups],
     .error (.fatalPlatformError "Failed to identify members of some NCN groups"))
  else if answer == "no" then
    ([PromptEvent.printedGroups, PromptEvent.promptIssued],
     .error (.fatalPlatformError "User indicated NCN groups are incorrect."))
  else
    ([PromptEvent.printedGroups, PromptEvent.promptIssued], .ok ncns_by_group)

/-- The call of the Ceph freeze collaborator in do_ceph_freeze. -/
inductive CephEvent where
  | calledFreeze
deriving Repr, DecidableEq

/-- do_ceph_freeze (platform.py lines 340-351): if ceph_healthy() is false,
raise FatalPlatformError without calling freeze_ceph; otherwise call
freeze_ceph exactly once and wrap its RuntimeError (if any) into
FatalPlatformError.  The two external collaborators are passed as values:
`ceph_healthy` is the health query's result and `freeze_ceph` the freeze
call's outcome. -/
def do_ceph_freeze (ceph_healthy : Bool) (freeze_ceph : Except String Unit) :
    List CephEvent × Except PyError Unit :=
  if !ceph_healthy then
    ([], .error (.fatalPlatformError "Ceph is not healthy. Please correct Ceph health and try again."))
  else
    match freeze_ceph with
    | .ok _ => ([CephEvent.calledFreeze], .ok ())
    | .error err => ([CephEvent.calledFreeze], .error (.fatalPlatformError err))

/-- do_containerd_stop (platform.py lines 292-307): run stop_containers on
every kubernetes NCN in one thread per host, join all threads, then stop
containerd on those hosts.  Returns the drain threads' log records together
with the containerd service action's trace and result. -/
def do_containerd_stop (ncn_groups : NcnGroups) (drainEnvOf : String → DrainEnv)
    (envOf : String → HostEnv) :
    List (LogLevel × String) × (List BatchEvent × Except PyError Unit) :=
  let k8s_ncns := ncn_groups.kubernetes
  let drainLogs := (k8s_ncns.map (fun ncn => runDrainThread ncn (drainEnvOf ncn))).flatten
  (drainLogs,
   do_service_action_on_hosts k8s_ncns "containerd" "inactive" SERVICE_ACTION_TIMEOUT none envOf)

/-- do_containerd_start (platform.py lines 310-317). -/
def do_containerd_start (ncn_groups : NcnGroups) (envOf : String → HostEnv) :
    List BatchEvent × Except PyError Unit :=
  do_service_action_on_hosts ncn_groups.kubernetes "containerd" "active"
    SERVICE_ACTION_TIMEOUT (some "enabled") envOf

/-- do_kubelet_stop (platform.py lines 320-327). -/
def do_kubelet_stop (ncn_groups : NcnGroups) (envOf : String → HostEnv) :
    List BatchEvent × Except PyError Unit :=
  do_service_action_on_hosts ncn_groups.kubernetes "kubelet" "inactive"
    SERVICE_ACTION_TIMEOUT (some "disabled") envOf

/-- do_kubelet_start (platform.py lines 330-337). -/
def do_kubelet_start (ncn_groups : NcnGroups) (envOf : String → HostEnv) :
    List BatchEvent × Except PyError Unit :=
  do_service_action_on_hosts ncn_groups.kubernetes "kubelet" "active"
    SERVICE_ACTION_TIMEOUT (some "enabled") envOf

/-- The five step action functions a PlatformServicesStep can name. -/
inductive StepAction where
  | containerdStart
  | kubeletStart
  | kubeletStop
  | containerdStop
  | cephFreeze
deriving Repr, DecidableEq

/-- PlatformServicesStep (platform.py line 356): a printed description and
the action called with the NCN group mapping. -/
structure PlatformServicesStep where
  description : String
  action : StepAction
deriving Repr, DecidableEq

/-- STEPS_BY_ACTION (platform.py lines 357-371): the fixed ordered step
lists, keyed by action; a pure definition, built once and never mutated. -/
def STEPS_BY_ACTION (action : String) : Option (List PlatformServicesStep) :=
  if action == "start" then
    some [⟨"Start containerd on all Kubernetes NCNs.", StepAction.containerdStart⟩,
          ⟨"Start and enable kubelet on all Kubernetes NCNs.", StepAction.kubeletStart⟩]
  else if action == "stop" then
    some [⟨"Stop and disable kubelet on all Kubernetes NCNs.", StepAction.kubeletStop⟩,
          ⟨"Stop containers running under containerd and stop containerd on all Kubernetes NCNs.",
           StepAction.containerdStop⟩,
          ⟨"Check health of Ceph cluster and freeze state.", StepAction.cephFreeze⟩]
  else
    none

/-- Everything outside the orchestration code that determines a platform
action's run: the inventory query, the admin's answer to the confirmation
prompt, the Ceph collaborators, and the per-step remote environments (one
environment function per step action, since the steps touch different
services at different times). -/
structure World where
  get_mgmt_ncn_hostnames : List String → List String
  answer : String
  cephHealthy : Bool
  freezeResult : Except String Unit
  drainEnvOf : String → DrainEnv
  svcEnvOf : StepAction → String → HostEnv

/-- Run one step action against the world (the body of step.action(ncn_groups)
in platform.py line 403), returning its Python result. -/
def runStepAction (w : World) (g : NcnGroups) : StepAction → Except PyError Unit
  | .containerdStart => (do_containerd_start g (w.svcEnvOf .containerdStart)).2
  | .kubeletStart => (do_kubelet_start g (w.svcEnvOf .kubeletStart)).2
  | .kubeletStop => (do_kubelet_stop g (w.svcEnvOf .kubeletStop)).2
  | .containerdStop => (do_containerd_stop g w.drainEnvOf (w.svcEnvOf .containerdStop)).2.2
  | .cephFreeze => (do_ceph_freeze w.cephHealthy w.freezeResult).2

/-- The step loop of do_platform_action (platform.py lines 398-407): execute
the steps in order; a step's FatalPlatformError is logged and converted to
SystemExit(1), aborting the remaining steps; any other exception propagates.
Returns the list of step actions actually invoked, in order. -/
def stepLoop (w : World) (g : NcnGroups) :
    List PlatformServicesStep → List StepAction × Except PyError Unit
  | [] => ([], .ok ())
  | step :: rest =>
    match runStepAction w g step.action with
    | .error (.fatalPlatformError _) => ([step.action], .error (.systemExit 1))
    | .error e => ([step.action], .error e)
    | .ok _ =>
      let tail := stepLoop w g rest
      (step.action :: tail.1, tail.2)

/-- do_platform_action (platform.py lines 374-407): look up the step list (an
unknown action is SystemExit(1)), run prompt_for_ncn_verification once (its
FatalPlatformError is SystemExit(1), before any step), then run the steps in
order through `stepLoop`.  Returns the invoked step actions and the result. -/
def do_platform_action (w : World) (action : String) :
    List StepAction × Except PyError Unit :=
  match STEPS_BY_ACTION action with
  | none => ([], .error (.systemExit 1))
  | some steps =>
    match (prompt_for_ncn_verification w.get_mgmt_ncn_hostnames w.answer).2 with
    | .error _ => ([], .error (.systemExit 1))
    | .ok ncn_groups => stepLoop w ncn_groups steps

/-- The waiter do_service_action_on_hosts constructs for one host
(platform.py lines 278-280; poll_interval is left at its default 5). -/
def serviceWaiterFor (service target_state : String) (timeout : Nat)
    (target_enabled : Option String) (host : String) : RemoteServiceWaiter :=
  ⟨host, service, target_state, timeout, 5, target_enabled⟩

/-- The final completed flag of the waiter a batch runs for one host. -/
def hostCompleted (service target_state : String) (timeout : Nat)
    (target_enabled : Option String) (envOf : String → HostEnv) (host : String) : Bool :=
  (serviceWaiterFor service target_state timeout target_enabled host).wait_for_completion
    (envOf host)

/-- A reachable host whose service reports the given active and enabled
status tokens and where every control command exits 0. -/
def envReady (st en : String) : HostEnv := ⟨true, st, 0, en, 0, 0, 0, []⟩

/-- An unreachable host: the SSH connection fails. -/
def envDown : HostEnv := ⟨false, "inactive", 0, "disabled", 0, 0, 0, []⟩

/-- A host whose service is active and enabled but whose stop command exits
with code 1. -/
def envStopFails : HostEnv := ⟨true, "active", 0, "enabled", 0, 1, 0, []⟩

/-- The waiter do_kubelet_stop constructs for one host. -/
def kubeletStopWaiter (host : String) : RemoteServiceWaiter :=
  ⟨host, "kubelet", "inactive", SERVICE_ACTION_TIMEOUT, 5, some "disabled"⟩

/-- A host whose service is already inactive (is-active exits non-zero, as
systemctl does for an inactive service) but still enabled. -/
def envStoppedStillEnabled : HostEnv := ⟨true, "inactive", 3, "enabled", 0, 0, 0, []⟩

/-- A host whose service is already inactive and already disabled. -/
def envStoppedDisabled : HostEnv := ⟨true, "inactive", 3, "disabled", 1, 0, 0, []⟩

/-- A drain environment whose SSH connection fails. -/
def drainConnFail : DrainEnv := ⟨false, 0⟩

/-- A drain environment whose container-stop pipeline exits 1. -/
def drainScriptFails : DrainEnv := ⟨true, 1⟩

/-- A drain environment where everything succeeds. -/
def drainOk : DrainEnv := ⟨true, 0⟩

/-- A small confirmed NCN group mapping. -/
def smallGroups : NcnGroups := ⟨["ncn-m001"], ["ncn-w001"], ["ncn-m001", "ncn-w001"]⟩

/-- An inventory query that finds no managers but one worker. -/
def invMissingManagers : List String → List String := fun tags =>
  if tags == ["managers"] then [] else ["ncn-w001"]

/-- An inventory query resolving one manager and one worker. -/
def okInv : List String → List String := fun tags =>
  if tags == ["managers"] then ["ncn-m001"]
  else if tags == ["workers"] then ["ncn-w001"]
  else ["ncn-m001", "ncn-w001"]

/-- Remote environments under which every platform step succeeds: each
service already reports the state and enabled status its step targets. -/
def okStepEnv : StepAction → String → HostEnv
  | .containerdStart, _ => envReady "active" "enabled"
  | .kubeletStart, _ => envReady "active" "enabled"
  | .kubeletStop, _ => envReady "inactive" "disabled"
  | .containerdStop, _ => envReady "inactive" "disabled"
  | .cephFreeze, _ => envReady "inactive" "disabled"

/-- A world in which both platform actions fully succeed. -/
def okWorld : World :=
  ⟨okInv, "yes", true, .ok (), fun _ => drainOk, okStepEnv⟩

/-- Like okWorld, but every host is unreachable for the kubelet-stop step,
so that step's batch ends with a FatalPlatformError. -/
def kubeletDownWorld : World :=
  ⟨okInv, "yes", true, .ok (), fun _ => drainOk,
   fun a h => match a with
     | .kubeletStop => envDown
     | _ => okStepEnv a h⟩

/-- A world with an empty managers group. -/
def missingManagersWorld : World :=
  ⟨invMissingManagers, "yes", true, .ok (), fun _ => drainOk, okStepEnv⟩

/-- A two-host environment map where h1 is already converged and h2 is
unreachable. -/
def c1EnvOf : String → HostEnv := fun h =>
  if h == "h1" then envReady "inactive" "disabled" else envDown


/-- The stop step list of STEPS_BY_ACTION. -/
def stopSteps : List PlatformServicesStep :=
  [⟨"Stop and disable kubelet on all Kubernetes NCNs.", StepAction.kubeletStop⟩,
   ⟨"Stop containers running under containerd and stop containerd on all Kubernetes NCNs.",
    StepAction.containerdStop⟩,
   ⟨"Check health of Ceph cluster and freeze state.", StepAction.cephFreeze⟩]

/-- The start step list of STEPS_BY_ACTION. -/
def startSteps : List PlatformServicesStep :=
  [⟨"Start containerd on all Kubernetes NCNs.", StepAction.containerdStart⟩,
   ⟨"Start and enable kubelet on all Kubernetes NCNs.", StepAction.kubeletStart⟩]

/-- The group mapping okInv resolves to. -/
def okGroups : NcnGroups := ⟨["ncn-m001"], ["ncn-w001"], ["ncn-m001", "ncn-w001"]⟩

end Sat.Platform

namespace Sat.Platform

/-- The is-active query never raises: nonzero_error is False. -/
theorem get_active_ok (w : RemoteServiceWaiter) (env : HostEnv) :
    w._get_active env = .ok env.activeState := by
  simp [RemoteServiceWaiter._get_active, _run_remote_command]

/-- The is-enabled query never raises: nonzero_error is False. -/
theorem get_enabled_ok (w : RemoteServiceWaiter) (env : HostEnv) :
    w._get_enabled env = .ok env.enabledState := by
  simp [RemoteServiceWaiter._get_enabled, _run_remote_command]

/-- has_completed never raises and compares the live token to the target. -/
theorem has_completed_ok (w : RemoteServiceWaiter) (env : HostEnv) :
    w.has_completed env = .ok (env.activeState == w.target_state) := by
  simp [RemoteServiceWaiter.has_completed, get_active_ok, Except.map]

theorem claim_C9 (host service_name target_state : String) (timeout poll_interval : Nat)
    (target_enabled : Option String) :
    (∃ w, RemoteServiceWaiter.init host service_name target_state timeout poll_interval
        target_enabled = .ok w)
    ↔ ((target_state = "active" ∨ target_state = "inactive") ∧
       (target_enabled = none ∨ target_enabled = some "enabled" ∨
        target_enabled = some "disabled")) := by
  unfold RemoteServiceWaiter.init
  rcases target_enabled with _ | te <;>
    simp [VALID_TARGET_STATE_VALUES, VALID_TARGET_ENABLED_VALUES] <;>
    by_cases h1 : target_state = "active" <;>
    by_cases h2 : target_state = "inactive" <;>
    simp_all <;>
    by_cases h3 : te = "enabled" <;>
    by_cases h4 : te = "disabled" <;>
    simp_all

theorem claim_C10 (w : RemoteServiceWaiter) (env : HostEnv) :
    w._get_active env = .ok env.activeState ∧
    w._get_enabled env = .ok env.enabledState ∧
    w.has_completed env = .ok (env.activeState == w.target_state) :=
  ⟨get_active_ok w env, get_enabled_ok w env, has_completed_ok w env⟩

theorem claim_C4_counterexample :
    (kubeletStopWaiter "ncn-w001").has_completed envStoppedStillEnabled = Except.ok true ∧
    ((kubeletStopWaiter "ncn-w001").pre_wait_action envStoppedStillEnabled).1.filter
        Systemctl.isControl = [Systemctl.disable] ∧
    ((kubeletStopWaiter "ncn-w001").pre_wait_action envStoppedStillEnabled).1.filter
        Systemctl.isControl ≠ [] := by
  refine ⟨by decide, by decide, by decide⟩

theorem claim_C4 (w : RemoteServiceWaiter) (env : HostEnv)
    (hconn : env.connectOk = true) (h : w.has_completed env = Except.ok true) :
    (w.pre_wait_action env).1.filter Systemctl.isControl =
      (match w.target_enabled with
       | none => []
       | some te =>
         if env.enabledState == te then []
         else [if te == "enabled" then Systemctl.enable else Systemctl.disable]) := by
  have hga : w._get_enabled env = .ok env.enabledState := get_enabled_ok w env
  rcases hte : w.target_enabled with _ | te <;>
    simp only [RemoteServiceWaiter.pre_wait_action, hconn, Bool.not_true, Bool.false_eq_true,
      if_false, h, RemoteServiceWaiter.pre_wait_enabled, hte, hga] <;>
    try rfl
  split
  · simp [Systemctl.isControl, List.filter]
  · unfold _run_remote_command
    split <;> split <;> simp_all [Systemctl.isControl, List.filter]

theorem claim_C4_witness :
    envStoppedDisabled.connectOk = true ∧
    (kubeletStopWaiter "ncn-w001").has_completed envStoppedDisabled = Except.ok true ∧
    ((kubeletStopWaiter "ncn-w001").pre_wait_action envStoppedDisabled).1.filter
        Systemctl.isControl = [] :=
  ⟨rfl, by decide,
   by exact claim_C4 (kubeletStopWaiter "ncn-w001") envStoppedDisabled rfl (by decide)⟩

theorem claim_C5_counterexample :
    ((kubeletStopWaiter "ncn-w001").pre_wait_action envStopFails).1.count Systemctl.stop = 1 ∧
    ((kubeletStopWaiter "ncn-w001").pre_wait_action envStopFails).1.count Systemctl.disable = 0 ∧
    ((kubeletStopWaiter "ncn-w001").pre_wait_action envStopFails).2 =
      .error (.runtimeError "Command returned non-zero exit code 1") := by
  refine ⟨by decide, by decide, by decide⟩

theorem claim_C5 (host : String) (env : HostEnv)
    (hc : env.connectOk = true) (ha : env.activeState = "active")
    (he : env.enabledState = "enabled") :
    (env.stateCmdExit = 0 →
      ((kubeletStopWaiter host).pre_wait_action env).1.filter Systemctl.isControl =
        [Systemctl.stop, Systemctl.disable]) ∧
    (env.stateCmdExit ≠ 0 →
      ((kubeletStopWaiter host).pre_wait_action env).1.filter Systemctl.isControl =
          [Systemctl.stop] ∧
        ∃ msg, ((kubeletStopWaiter host).pre_wait_action env).2 =
          .error (.runtimeError msg)) := by
  have hga : (kubeletStopWaiter host)._get_enabled env = .ok env.enabledState :=
    get_enabled_ok _ env
  have hhc : (kubeletStopWaiter host).has_completed env = .ok false := by
    rw [has_completed_ok, ha]; rfl
  have hts : (kubeletStopWaiter host).target_state = "inactive" := rfl
  have hten : (kubeletStopWaiter host).target_enabled = some "disabled" := rfl
  constructor
  · intro h0
    simp only [RemoteServiceWaiter.pre_wait_action, hc, Bool.not_true, Bool.false_eq_true,
      if_false, hhc, hts, RemoteServiceWaiter.pre_wait_enabled, hten, hga, he,
      _run_remote_command, h0]
    cases h2 : env.enableCmdExit <;> simp_all [Systemctl.isControl, List.filter]
  · intro h0
    have h1 : (env.stateCmdExit != 0) = true := by simpa using h0
    simp only [RemoteServiceWaiter.pre_wait_action, hc, Bool.not_true, Bool.false_eq_true,
      if_false, hhc, hts, RemoteServiceWaiter.pre_wait_enabled, hten, hga, he,
      _run_remote_command, h1]
    simp [Systemctl.isControl, List.filter]

theorem claim_C5_witness :
    ((kubeletStopWaiter "ncn-w001").pre_wait_action (envReady "active" "enabled")).1.filter
        Systemctl.isControl = [Systemctl.stop, Systemctl.disable] ∧
    ((kubeletStopWaiter "ncn-w001").pre_wait_action envStopFails).1.filter
        Systemctl.isControl = [Systemctl.stop] :=
  ⟨(claim_C5 "ncn-w001" (envReady "active" "enabled") rfl rfl rfl).1 rfl,
   ((claim_C5 "ncn-w001" envStopFails rfl rfl rfl).2 (by decide)).1⟩

end Sat.Platform

namespace Sat.Platform

theorem claim_C8 (healthy : Bool) (fr : Except String Unit) :
    ((do_ceph_freeze healthy fr).1.count CephEvent.calledFreeze =
      if healthy then 1 else 0) ∧
    (healthy = false → (do_ceph_freeze healthy fr).1 = [] ∧
      (do_ceph_freeze healthy fr).2 = .error (.fatalPlatformError
        "Ceph is not healthy. Please correct Ceph health and try again.")) ∧
    (∀ msg, fr = .error msg → healthy = true →
      (do_ceph_freeze healthy fr).2 = .error (.fatalPlatformError msg)) := by
  cases healthy <;> cases fr <;> simp [do_ceph_freeze, List.count_cons]

theorem claim_C8_witness :
    (do_ceph_freeze false (.ok ())).1 = [] ∧
    (do_ceph_freeze false (.ok ())).2 = .error (.fatalPlatformError
      "Ceph is not healthy. Please correct Ceph health and try again.") ∧
    (do_ceph_freeze true (.error "freeze failed")).2 =
      .error (.fatalPlatformError "freeze failed") :=
  ⟨((claim_C8 false (.ok ())).2.1 rfl).1, ((claim_C8 false (.ok ())).2.1 rfl).2,
   (claim_C8 true (.error "freeze failed")).2.2 "freeze failed" rfl rfl⟩

theorem claim_C6_counterexample :
    (stop_containers "ncn-w001" drainConnFail).1 =
      [(LogLevel.error, "Failed to connect to host ncn-w001")] ∧
    (stop_containers "ncn-w001" drainConnFail).2 = .error (.systemExit 1) := by
  refine ⟨by decide, by decide⟩

theorem claim_C6 (g : NcnGroups) (d d2 : String → DrainEnv) (envOf : String → HostEnv)
    (host : String) (env : DrainEnv) :
    ((do_containerd_stop g d envOf).2 = (do_containerd_stop g d2 envOf).2) ∧
    (env.connectOk = true → env.scriptExit ≠ 0 →
      (stop_containers host env).1.map Prod.fst = [LogLevel.warning] ∧
      (stop_containers host env).2 = .ok ()) ∧
    (env.connectOk = false →
      (stop_containers host env).1.map Prod.fst = [LogLevel.error] ∧
      (stop_containers host env).2 = .error (.systemExit 1)) := by
  refine ⟨rfl, ?_, ?_⟩
  · intro hc hs
    have h1 : (env.scriptExit != 0) = true := by simpa using hs
    simp [stop_containers, hc, h1]
  · intro hc
    simp [stop_containers, hc]

theorem claim_C6_witness :
    (do_containerd_stop smallGroups (fun _ => drainConnFail)
        (fun _ => envReady "inactive" "disabled")).2 =
      (do_containerd_stop smallGroups (fun _ => drainOk)
        (fun _ => envReady "inactive" "disabled")).2 ∧
    (stop_containers "ncn-w001" drainScriptFails).1.map Prod.fst = [LogLevel.warning] ∧
    (stop_containers "ncn-w001" drainScriptFails).2 = .ok () :=
  ⟨(claim_C6 smallGroups (fun _ => drainConnFail) (fun _ => drainOk)
      (fun _ => envReady "inactive" "disabled") "ncn-w001" drainScriptFails).1,
   ((claim_C6 smallGroups (fun _ => drainConnFail) (fun _ => drainOk)
      (fun _ => envReady "inactive" "disabled") "ncn-w001" drainScriptFails).2.1 rfl
      (by decide)).1,
   ((claim_C6 smallGroups (fun _ => drainConnFail) (fun _ => drainOk)
      (fun _ => envReady "inactive" "disabled") "ncn-w001" drainScriptFails).2.1 rfl
      (by decide)).2⟩


/-- Inserting into a sorted list never yields the empty list. -/
theorem insertSorted_ne_nil (x : String) (l : List String) : insertSorted x l ≠ [] := by
  cases l with
  | nil => simp [insertSorted]
  | cons y ys => simp only [insertSorted]; split <;> simp

/-- Sorting preserves emptiness. -/
theorem sortedStrings_eq_nil_iff (l : List String) : sortedStrings l = [] ↔ l = [] := by
  cases l with
  | nil => simp [sortedStrings]
  | cons x xs =>
    simp only [sortedStrings, List.foldr]
    exact ⟨fun h => absurd h (insertSorted_ne_nil x _), fun h => by simp at h⟩

/-- If any of the three resolved groups is empty, prompt_for_ncn_verification
raises FatalPlatformError having printed the groups but never issued the
confirmation prompt. -/
theorem prompt_empty_group (inv : List String → List String) (answer : String)
    (h : inv ["managers"] = [] ∨ inv ["workers"] = [] ∨ inv ["managers", "workers"] = []) :
    prompt_for_ncn_verification inv answer =
      ([PromptEvent.printedGroups],
       .error (.fatalPlatformError "Failed to identify members of some NCN groups")) := by
  rcases h with h | h | h <;>
    cases hb1 : (sortedStrings (inv ["managers"])).isEmpty <;>
    cases hb2 : (sortedStrings (inv ["workers"])).isEmpty <;>
    cases hb3 : (sortedStrings (inv ["managers", "workers"])).isEmpty <;>
    simp_all [prompt_for_ncn_verification, sortedStrings_eq_nil_iff]

theorem claim_C7 (inv : List String → List String) (answer : String)
    (h : inv ["managers"] = [] ∨ inv ["workers"] = [] ∨ inv ["managers", "workers"] = []) :
    (∃ msg, (prompt_for_ncn_verification inv answer).2 = .error (.fatalPlatformError msg)) ∧
    PromptEvent.promptIssued ∉ (prompt_for_ncn_verification inv answer).1 ∧
    (∀ w : World, w.get_mgmt_ncn_hostnames = inv →
      ∀ action, (do_platform_action w action).1 = [] ∧
        (do_platform_action w action).2 ≠ .ok ()) := by
  have hp := prompt_empty_group inv answer h
  refine ⟨⟨_, by rw [hp]⟩, by rw [hp]; simp, ?_⟩
  intro w hw action
  have hp2 := prompt_empty_group inv w.answer h
  unfold do_platform_action
  rw [hw]
  cases hS : STEPS_BY_ACTION action
  · simp
  · rw [hp2]
    simp

theorem claim_C7_witness :
    (∃ msg, (prompt_for_ncn_verification invMissingManagers "yes").2 =
      .error (.fatalPlatformError msg)) ∧
    PromptEvent.promptIssued ∉ (prompt_for_ncn_verification invMissingManagers "yes").1 ∧
    (do_platform_action missingManagersWorld "stop").1 = [] :=
  ⟨(claim_C7 invMissingManagers "yes" (Or.inl (by decide))).1,
   (claim_C7 invMissingManagers "yes" (Or.inl (by decide))).2.1,
   ((claim_C7 invMissingManagers "yes" (Or.inl (by decide))).2.2
     missingManagersWorld rfl "stop").1⟩


theorem steps_by_action_stop : STEPS_BY_ACTION "stop" = some stopSteps := by decide

theorem steps_by_action_start : STEPS_BY_ACTION "start" = some startSteps := by decide

/-- When the step loop returns normally, every step's action was invoked in
order. -/
theorem stepLoop_ok (w : World) (g : NcnGroups) :
    ∀ steps : List PlatformServicesStep, (stepLoop w g steps).2 = .ok () →
      (stepLoop w g steps).1 = steps.map (fun s => s.action) := by
  intro steps
  induction steps with
  | nil => intro _; rfl
  | cons s rest ih =>
    intro h
    simp only [stepLoop] at h ⊢
    cases hr : runStepAction w g s.action with
    | error e => cases e <;> simp [hr] at h
    | ok u =>
      simp only [hr] at h ⊢
      simp only [List.map]
      exact congrArg _ (ih h)

theorem claim_C3 (w : World)
    (hstop : (do_platform_action w "stop").2 = .ok ())
    (hstart : (do_platform_action w "start").2 = .ok ()) :
    STEPS_BY_ACTION "stop" = some stopSteps ∧
    STEPS_BY_ACTION "start" = some startSteps ∧
    (do_platform_action w "stop").1 =
      [StepAction.kubeletStop, StepAction.containerdStop, StepAction.cephFreeze] ∧
    (do_platform_action w "start").1 =
      [StepAction.containerdStart, StepAction.kubeletStart] := by
  refine ⟨steps_by_action_stop, steps_by_action_start, ?_, ?_⟩
  · unfold do_platform_action at hstop ⊢
    rw [steps_by_action_stop] at hstop ⊢
    cases hp : (prompt_for_ncn_verification w.get_mgmt_ncn_hostnames w.answer).2 with
    | error e => rw [hp] at hstop; simp at hstop
    | ok g =>
      rw [hp] at hstop
      simpa [stopSteps] using stepLoop_ok w g stopSteps hstop
  · unfold do_platform_action at hstart ⊢
    rw [steps_by_action_start] at hstart ⊢
    cases hp : (prompt_for_ncn_verification w.get_mgmt_ncn_hostnames w.answer).2 with
    | error e => rw [hp] at hstart; simp at hstart
    | ok g =>
      rw [hp] at hstart
      simpa [startSteps] using stepLoop_ok w g startSteps hstart

theorem claim_C3_witness :
    (do_platform_action okWorld "stop").2 = .ok () ∧
    (do_platform_action okWorld "start").2 = .ok () ∧
    (do_platform_action okWorld "stop").1 =
      [StepAction.kubeletStop, StepAction.containerdStop, StepAction.cephFreeze] ∧
    (do_platform_action okWorld "start").1 =
      [StepAction.containerdStart, StepAction.kubeletStart] :=
  ⟨by decide, by decide,
   (claim_C3 okWorld (by decide) (by decide)).2.2.1,
   (claim_C3 okWorld (by decide) (by decide)).2.2.2⟩


/-- If the first k steps succeed and step k raises FatalPlatformError, the
step loop invokes exactly the first k+1 actions and exits with
SystemExit(1). -/
theorem stepLoop_fail (w : World) (g : NcnGroups) :
    ∀ (steps : List PlatformServicesStep) (k : Nat) (hk : k < steps.length),
      (∀ s ∈ steps.take k, runStepAction w g s.action = .ok ()) →
      (∃ msg, runStepAction w g (steps.get ⟨k, hk⟩).action =
        .error (.fatalPlatformError msg)) →
      stepLoop w g steps = ((steps.take (k + 1)).map (fun s => s.action),
        .error (.systemExit 1)) := by
  intro steps
  induction steps with
  | nil => intro k hk; simp at hk
  | cons s rest ih =>
    intro k hk hbefore hfail
    cases k with
    | zero =>
      obtain ⟨msg, hmsg⟩ := hfail
      simp only [List.get] at hmsg
      simp [stepLoop, hmsg, List.take]
    | succ k =>
      have hs : runStepAction w g s.action = .ok () := hbefore s (by simp [List.take])
      have htail := ih k (by simpa using hk)
        (fun t ht => hbefore t (by simp [List.take]; exact Or.inr ht))
        (by simpa using hfail)
      simp [stepLoop, hs, htail, List.take]

theorem claim_C2 (w : World) (action : String) (steps : List PlatformServicesStep)
    (g : NcnGroups) (k : Nat)
    (hsteps : STEPS_BY_ACTION action = some steps)
    (hprompt : (prompt_for_ncn_verification w.get_mgmt_ncn_hostnames w.answer).2 = .ok g)
    (hk : k < steps.length)
    (hbefore : ∀ s ∈ steps.take k, runStepAction w g s.action = .ok ())
    (hfail : ∃ msg, runStepAction w g (steps.get ⟨k, hk⟩).action =
      .error (.fatalPlatformError msg)) :
    (do_platform_action w action).2 = .error (.systemExit 1) ∧
    (do_platform_action w action).1 = (steps.take (k + 1)).map (fun s => s.action) ∧
    ∀ s ∈ steps.drop (k + 1), s.action ∉ (do_platform_action w action).1 := by
  have hloop := stepLoop_fail w g steps k hk hbefore hfail
  have hda : do_platform_action w action =
      ((steps.take (k + 1)).map (fun s => s.action), .error (.systemExit 1)) := by
    unfold do_platform_action
    rw [hsteps, hprompt]
    exact hloop
  have hnd : (steps.map (fun s => s.action)).Nodup := by
    unfold STEPS_BY_ACTION at hsteps
    split at hsteps
    · cases hsteps; decide
    · split at hsteps
      · cases hsteps; decide
      · cases hsteps
  refine ⟨by rw [hda], by rw [hda], ?_⟩
  have hsplit : steps.map (fun s => s.action) =
      (steps.take (k + 1)).map (fun s => s.action) ++
      (steps.drop (k + 1)).map (fun s => s.action) := by
    rw [← List.map_append, List.take_append_drop]
  rw [hsplit] at hnd
  have hdisj := (List.nodup_append.mp hnd).2.2
  intro t ht hmem
  rw [hda] at hmem
  exact hdisj hmem (List.mem_map_of_mem _ ht)

theorem claim_C2_witness :
    (do_platform_action kubeletDownWorld "stop").2 = .error (.systemExit 1) ∧
    (do_platform_action kubeletDownWorld "stop").1 = [StepAction.kubeletStop] ∧
    StepAction.containerdStop ∉ (do_platform_action kubeletDownWorld "stop").1 ∧
    StepAction.cephFreeze ∉ (do_platform_action kubeletDownWorld "stop").1 := by
  have H := claim_C2 kubeletDownWorld "stop" stopSteps okGroups 0
    (by decide) (by decide) (by decide) (by simp)
    ⟨batchFailMessage "kubelet" "inactive" (some "disabled"), by decide⟩
  exact ⟨H.1, H.2.1,
    H.2.2 ⟨"Stop containers running under containerd and stop containerd on all Kubernetes NCNs.",
      StepAction.containerdStop⟩ (by decide),
    H.2.2 ⟨"Check health of Ceph cluster and freeze state.", StepAction.cephFreeze⟩ (by decide)⟩


/-- With valid target values, waiter construction succeeds on every host and
yields exactly one waiter per host. -/
theorem mkWaiters_valid (service target_state : String) (timeout : Nat)
    (target_enabled : Option String)
    (hs : VALID_TARGET_STATE_VALUES.contains target_state = true)
    (he : ∀ te, target_enabled = some te →
      VALID_TARGET_ENABLED_VALUES.contains te = true) :
    ∀ hosts : List String,
      mkWaiters service target_state timeout target_enabled hosts =
        .ok (hosts.map (serviceWaiterFor service target_state timeout target_enabled)) := by
  intro hosts
  induction hosts with
  | nil => rfl
  | cons h rest ih =>
    have hinit : RemoteServiceWaiter.init h service target_state timeout 5 target_enabled =
        .ok (serviceWaiterFor service target_state timeout target_enabled h) := by
      have hs2 : target_state ∈ VALID_TARGET_STATE_VALUES := by simpa using hs
      unfold RemoteServiceWaiter.init serviceWaiterFor
      rcases target_enabled with _ | te
      · simp [hs2]
      · have he2 : te ∈ VALID_TARGET_ENABLED_VALUES := by simpa using he te rfl
        simp [hs2, he2]
    simp [mkWaiters, hinit, ih]

/-- The start events of a batch are one per host, in host order. -/
theorem batch_start_events (service target_state : String) (timeout : Nat)
    (target_enabled : Option String) (hosts : List String) :
    (hosts.map (serviceWaiterFor service target_state timeout target_enabled)).map
      (fun w => BatchEvent.started w.host) = hosts.map (fun h => BatchEvent.started h) := by
  induction hosts with
  | nil => rfl
  | cons a t ih => simp only [List.map]; rw [ih]; rfl

/-- The await events of a batch are one per host, in host order, carrying the
host's final completed flag. -/
theorem batch_await_events (service target_state : String) (timeout : Nat)
    (target_enabled : Option String) (envOf : String → HostEnv) (hosts : List String) :
    ((hosts.map (serviceWaiterFor service target_state timeout target_enabled)).map
        (fun w => (w.host, w.wait_for_completion (envOf w.host)))).map
          (fun r => BatchEvent.awaited r.1 r.2) =
      hosts.map (fun h => BatchEvent.awaited h
        (hostCompleted service target_state timeout target_enabled envOf h)) := by
  induction hosts with
  | nil => rfl
  | cons a t ih => simp only [List.map]; rw [ih]; rfl

/-- The aggregate check over the waiters is the conjunction of the per-host
completed flags. -/
theorem batch_all_eq (service target_state : String) (timeout : Nat)
    (target_enabled : Option String) (envOf : String → HostEnv) (hosts : List String) :
    ((hosts.map (serviceWaiterFor service target_state timeout target_enabled)).map
        (fun w => (w.host, w.wait_for_completion (envOf w.host)))).all (fun r => r.2) =
      hosts.all (hostCompleted service target_state timeout target_enabled envOf) := by
  induction hosts with
  | nil => rfl
  | cons a t ih => simp only [List.map, List.all]; rw [ih]; rfl

/-- The closed form of a batch with valid target values: start events for all
hosts, then await events for all hosts, then the raise exactly when some host
did not complete. -/
theorem do_service_action_closed (hosts : List String) (service target_state : String)
    (timeout : Nat) (target_enabled : Option String) (envOf : String → HostEnv)
    (hs : VALID_TARGET_STATE_VALUES.contains target_state = true)
    (he : ∀ te, target_enabled = some te →
      VALID_TARGET_ENABLED_VALUES.contains te = true) :
    do_service_action_on_hosts hosts service target_state timeout target_enabled envOf =
      (hosts.map (fun h => BatchEvent.started h) ++
       hosts.map (fun h => BatchEvent.awaited h
         (hostCompleted service target_state timeout target_enabled envOf h)) ++
       (if hosts.all (hostCompleted service target_state timeout target_enabled envOf)
        then [] else [BatchEvent.raisedFatal]),
       if hosts.all (hostCompleted service target_state timeout target_enabled envOf)
       then .ok ()
       else .error (.fatalPlatformError
         (batchFailMessage service target_state target_enabled))) := by
  unfold do_service_action_on_hosts
  rw [mkWaiters_valid service target_state timeout target_enabled hs he hosts]
  simp only [batch_start_events, batch_await_events, batch_all_eq]
  cases hD : hosts.all (hostCompleted service target_state timeout target_enabled envOf) <;>
    simp [hD]


/-- Splitting a list that ends in its only occurrence of x at that x: the
prefix is everything before it. -/
theorem append_singleton_eq_split {α : Type} (x : α) :
    ∀ (l pre post : List α), x ∉ l → l ++ [x] = pre ++ x :: post →
      pre = l ∧ post = [] := by
  intro l
  induction l with
  | nil =>
    intro pre post _ hEq
    cases pre with
    | nil =>
      refine ⟨rfl, ?_⟩
      simpa using hEq
    | cons b pre2 =>
      exfalso
      simp only [List.nil_append, List.cons_append] at hEq
      obtain ⟨rfl, h2⟩ := List.cons.inj hEq
      exact absurd h2.symm (by simp)
  | cons a l ih =>
    intro pre post hx hEq
    cases pre with
    | nil =>
      exfalso
      simp only [List.cons_append, List.nil_append] at hEq
      obtain ⟨rfl, h2⟩ := List.cons.inj hEq
      exact hx (List.mem_cons_self a l)
    | cons b pre2 =>
      simp only [List.cons_append] at hEq
      obtain ⟨rfl, h2⟩ := List.cons.inj hEq
      have hx2 : x ∉ l := fun hm => hx (List.mem_cons_of_mem a hm)
      obtain ⟨hpre, hpost⟩ := ih pre2 post hx2 h2
      exact ⟨by rw [hpre], hpost⟩

/-- raisedFatal is not among the start and await events. -/
theorem raised_not_mem_events (hosts : List String)
    (compl : String → Bool) :
    BatchEvent.raisedFatal ∉ hosts.map (fun h => BatchEvent.started h) ++
      hosts.map (fun h => BatchEvent.awaited h (compl h)) := by
  simp

theorem claim_C1 (hosts : List String) (service target_state : String) (timeout : Nat)
    (target_enabled : Option String) (envOf : String → HostEnv)
    (tr : List BatchEvent) (res : Except PyError Unit)
    (hs : VALID_TARGET_STATE_VALUES.contains target_state = true)
    (he : ∀ te, target_enabled = some te →
      VALID_TARGET_ENABLED_VALUES.contains te = true)
    (hout : do_service_action_on_hosts hosts service target_state timeout target_enabled
      envOf = (tr, res)) :
    tr = hosts.map (fun h => BatchEvent.started h) ++
        hosts.map (fun h => BatchEvent.awaited h
          (hostCompleted service target_state timeout target_enabled envOf h)) ++
        (if hosts.all (hostCompleted service target_state timeout target_enabled envOf)
         then [] else [BatchEvent.raisedFatal]) ∧
    ((∃ msg, res = .error (.fatalPlatformError msg)) ↔
      ∃ h ∈ hosts,
        hostCompleted service target_state timeout target_enabled envOf h = false) ∧
    tr.count BatchEvent.raisedFatal ≤ 1 ∧
    (∀ pre post, tr = pre ++ BatchEvent.raisedFatal :: post →
      ∀ h ∈ hosts, BatchEvent.started h ∈ pre ∧
        BatchEvent.awaited h
          (hostCompleted service target_state timeout target_enabled envOf h) ∈ pre) := by
  rw [do_service_action_closed hosts service target_state timeout target_enabled envOf hs he]
    at hout
  injection hout with htr hres
  subst htr
  subst hres
  refine ⟨rfl, ?_, ?_, ?_⟩
  · cases hall : hosts.all (hostCompleted service target_state timeout target_enabled envOf) with
    | false =>
      simp only [hall, Bool.false_eq_true, if_false]
      constructor
      · intro _
        obtain ⟨x, hx, hnx⟩ := List.all_eq_false.mp hall
        exact ⟨x, hx, by simpa using hnx⟩
      · intro _
        exact ⟨batchFailMessage service target_state target_enabled, rfl⟩
    | true =>
      simp only [hall, if_true]
      constructor
      · intro hex
        obtain ⟨msg, hmsg⟩ := hex
        exact absurd hmsg (by simp)
      · intro hex
        obtain ⟨x, hx, hfx⟩ := hex
        have hc := List.all_eq_true.mp hall x hx
        rw [hfx] at hc
        exact absurd hc (by simp)
  · have hA : (hosts.map (fun h => BatchEvent.started h)).count BatchEvent.raisedFatal = 0 :=
      List.count_eq_zero.mpr (by simp)
    have hB : (hosts.map (fun h => BatchEvent.awaited h
        (hostCompleted service target_state timeout target_enabled envOf h))).count
          BatchEvent.raisedFatal = 0 :=
      List.count_eq_zero.mpr (by simp)
    cases hall : hosts.all (hostCompleted service target_state timeout target_enabled envOf) <;>
      simp [hall, List.count_append, hA, hB]
  · intro pre post hsplit h hm
    cases hall : hosts.all (hostCompleted service target_state timeout target_enabled envOf) with
    | true =>
      exfalso
      rw [hall] at hsplit
      simp only [if_true, List.append_nil] at hsplit
      have hmem : BatchEvent.raisedFatal ∈
          hosts.map (fun h => BatchEvent.started h) ++
          hosts.map (fun h => BatchEvent.awaited h
            (hostCompleted service target_state timeout target_enabled envOf h)) := by
        rw [hsplit]
        exact List.mem_append_right _ (List.mem_cons_self _ _)
      exact raised_not_mem_events hosts
        (hostCompleted service target_state timeout target_enabled envOf) hmem
    | false =>
      rw [hall] at hsplit
      simp only [Bool.false_eq_true, if_false] at hsplit
      obtain ⟨hpre, _⟩ := append_singleton_eq_split BatchEvent.raisedFatal
        (hosts.map (fun h => BatchEvent.started h) ++
         hosts.map (fun h => BatchEvent.awaited h
           (hostCompleted service target_state timeout target_enabled envOf h)))
        pre post
        (raised_not_mem_events hosts
          (hostCompleted service target_state timeout target_enabled envOf))
        hsplit
      rw [hpre]
      exact ⟨List.mem_append_left _ (List.mem_map_of_mem _ hm),
        List.mem_append_right _ (List.mem_map_of_mem _ hm)⟩


theorem claim_C1_witness :
    ((∃ msg, (do_service_action_on_hosts ["h1", "h2"] "kubelet" "inactive" 30
        (some "disabled") c1EnvOf).2 = .error (.fatalPlatformError msg)) ↔
      ∃ h ∈ (["h1", "h2"] : List String),
        hostCompleted "kubelet" "inactive" 30 (some "disabled") c1EnvOf h = false) ∧
    (do_service_action_on_hosts ["h1", "h2"] "kubelet" "inactive" 30
        (some "disabled") c1EnvOf).1.count BatchEvent.raisedFatal ≤ 1 :=
  ⟨(claim_C1 ["h1", "h2"] "kubelet" "inactive" 30 (some "disabled") c1EnvOf _ _
      (by decide) (fun te hte => by cases hte; decide) rfl).2.1,
   (claim_C1 ["h1", "h2"] "kubelet" "inactive" 30 (some "disabled") c1EnvOf _ _
      (by decide) (fun te hte => by cases hte; decide) rfl).2.2.1⟩

end Sat.Platform
